import Mathlib

set_option maxRecDepth 2000

/-
A verification development for the Flask OCR service in app.py.

Strings are modelled as lists of characters (`Str`), so that every
operation is a structural recursion the kernel can evaluate.  The
external capabilities the service calls into (pdf2image, pytesseract,
PIL, requests, tempfile, os, the filesystem) are supplied by an
explicit environment record `Env`; a raised exception from a capability
is modelled as an `Except.error`.  Each request handler is a pure
function from a request and an environment to a response together with
the list of side effects it performed and the set of request-created
temporary files still on disk when the response is returned.
-/

/-- Python strings, modelled as lists of characters. -/
abbrev Str := List Char

/-- Embed a Lean string literal into the character-list model. -/
def str (s : String) : Str := s.toList

/-- Lowercase a single ASCII character (model of Python str.lower). -/
def lowerChar (c : Char) : Char :=
  if 'A' ≤ c ∧ c ≤ 'Z' then Char.ofNat (c.toNat + 32) else c

/-- Model of Python str.lower. -/
def lowerStr (s : Str) : Str := s.map lowerChar

/-- Model of Python str.strip: remove leading and trailing whitespace. -/
def stripStr (s : Str) : Str :=
  ((s.dropWhile Char.isWhitespace).reverse.dropWhile Char.isWhitespace).reverse

/-- Model of Python str.endswith. -/
def endsWithS (s suf : Str) : Bool := suf.isSuffixOf s

/-- Split a character list at every occurrence of a separator character
(model of Python str.split with a one-character separator). -/
def splitOnChar (sep : Char) : Str → List Str
  | [] => [[]]
  | c :: rest =>
    let r := splitOnChar sep rest
    if c = sep then [] :: r
    else (c :: r.headD []) :: r.tail

/-- Substring containment (model of Python `needle in hay`). -/
def strContains (needle : Str) : Str → Bool
  | [] => needle.isEmpty
  | c :: t => needle.isPrefixOf (c :: t) || strContains needle t

/-- Decimal value of a digit string. -/
def digitsToNat (ds : Str) : Nat := ds.foldl (fun a c => a * 10 + (c.toNat - 48)) 0

/-- Helper for `parseIntStr`: the digits after an optional sign. -/
def parseIntCore (neg : Bool) (ds : Str) : Option Int :=
  if ds ≠ [] ∧ ds.all Char.isDigit = true then
    some (if neg then -(digitsToNat ds : Int) else (digitsToNat ds : Int))
  else none

/-- Modelled from Python int() on strings: optional surrounding
whitespace, an optional sign, then decimal digits (underscore digit
grouping is not modelled). `none` models the raised ValueError. -/
def parseIntStr (s : Str) : Option Int :=
  match stripStr s with
  | '-' :: rest => parseIntCore true rest
  | '+' :: rest => parseIntCore false rest
  | l => parseIntCore false l

/-- Digits of a natural number, fuel-indexed so the recursion is structural. -/
def natToStrAux : Nat → Nat → Str
  | 0, _ => []
  | fuel + 1, n => if n = 0 then [] else natToStrAux fuel (n / 10) ++ [Char.ofNat (48 + n % 10)]

/-- Decimal rendering of a natural number. -/
def natToStr (n : Nat) : Str := if n = 0 then ['0'] else natToStrAux (n + 1) n

/-- Decimal rendering of an integer (model of Python str on int). -/
def intToStr : Int → Str
  | .ofNat n => natToStr n
  | .negSucc n => '-' :: natToStr (n + 1)

/-- A form-field / JSON value: the service only ever inspects strings
and integers, so the model carries exactly those. -/
inductive PValue where
  | pstr (v : Str)
  | pint (v : Int)
deriving DecidableEq

/-- Python truthiness of a field value. -/
def truthy : PValue → Bool
  | .pstr v => !v.isEmpty
  | .pint v => v != 0

/-- Model of Python str() applied to a field value. -/
def pyStr : PValue → Str
  | .pstr v => v
  | .pint v => intToStr v

/-- Model of Python int() applied to a field value. -/
def pyInt : PValue → Option Int
  | .pstr v => parseIntStr v
  | .pint v => some v

/-- Split a POSIX path string into its nonempty components (model of
pathlib's parts, with the root marker dropped). -/
def splitPath (s : Str) : List Str := (splitOnChar '/' s).filter (fun c => !c.isEmpty)

/-- One step of POSIX path canonicalization. -/
def resolveStep (acc : List Str) (c : Str) : List Str :=
  if c = str "." then acc
  else if c = str ".." then acc.dropLast
  else acc ++ [c]

/-- Canonicalize an absolute component list (model of Path.resolve):
"." components vanish and ".." pops the previous component. -/
def resolveComps (cs : List Str) : List Str := cs.foldl resolveStep []

/-- From app.py is_safe_path: `user_path.resolve().is_relative_to(base_dir.resolve())`,
on the component model of absolute paths. -/
def is_safe_path (base_dir user_path : List Str) : Bool :=
  (resolveComps base_dir).isPrefixOf (resolveComps user_path)

/-- Model of pathlib Path.suffix on a file name: the part from the last
dot on, empty when the dot is absent, leading, or trailing. -/
def nameSuffix (name : Str) : Str :=
  let parts := splitOnChar '.' name
  if 2 ≤ parts.length ∧ parts.getLastD [] ≠ [] ∧ ¬(parts.length = 2 ∧ parts.headD [] = []) then
    '.' :: parts.getLastD []
  else []

/-- Path.suffix of the last component of a path. -/
def pathSuffix (comps : List Str) : Str := nameSuffix (comps.getLastD [])

/-- Path.name: the last component of a path. -/
def pathName (comps : List Str) : Str := comps.getLastD []

/-- str() of an absolute path given by its components. -/
def pathString (comps : List Str) : Str := '/' :: joinComps comps
where joinComps : List Str → Str
  | [] => []
  | [c] => c
  | c :: c2 :: rest => c ++ '/' :: joinComps (c2 :: rest)

/-- From app.py ALLOWED_EXTENSIONS. -/
def ALLOWED_EXTENSIONS : List Str := [str "pdf", str "png", str "jpg", str "jpeg"]

/-- From app.py allowed_file: the filename contains a dot and the part
after the last dot, lowercased, is an allowed extension. -/
def allowed_file (filename : Str) : Bool :=
  filename.contains '.' &&
    ALLOWED_EXTENSIONS.contains (lowerStr ((splitOnChar '.' filename).getLastD []))

/-- Modelled from urllib.parse.urlparse: the scheme component
(lowercased), empty when missing or malformed. -/
def urlScheme (s : Str) : Str :=
  match splitOnChar ':' s with
  | pre :: _ :: _ =>
    if pre ≠ [] ∧ (pre.headD 'a').isAlpha = true ∧
        pre.all (fun c => c.isAlphanum || c == '+' || c == '-' || c == '.') = true then
      lowerStr pre
    else []
  | _ => []

/-- From app.py is_http_url: the parsed scheme is http or https. -/
def is_http_url (s : Str) : Bool :=
  urlScheme s == str "http" || urlScheme s == str "https"

/-- Everything after the first occurrence of a character. -/
def afterChar (c : Char) : Str → Str
  | [] => []
  | x :: rest => if x = c then rest else afterChar c rest

/-- Drop a leading //authority part, if present. -/
def dropAuthority : Str → Str
  | '/' :: '/' :: r => r.dropWhile (fun c => c != '/')
  | r => r

/-- Modelled from urllib.parse.urlparse: the path component of a URL
(scheme, authority, query and fragment removed). -/
def urlPath (s : Str) : Str :=
  let rest := if urlScheme s ≠ [] then afterChar ':' s else s
  (dropAuthority rest).takeWhile (fun c => c != '?' && c != '#')

/-- Opaque handle for a rendered page image / PIL image. -/
abbrev Image := Nat

/-- The observable side effects a request performs, in order. -/
inductive Effect where
  | fetch (url : Str)
  | mkTemp (name : Str)
  | save (name : Str)
  | checkExists (path : List Str)
  | render (path : Str) (dpi last_page : Int)
  | ocrImg (img : Image)
  | pilOpen (path : Str)
  | unlink (name : Str)
deriving DecidableEq

/-- Result of the HTTP client capability (requests.get). -/
structure FetchResp where
  status : Nat
  content_type : Str
deriving DecidableEq

/-- The external capabilities and ambient state the service relies on.
An `Except.error` result models an exception raised by the capability;
`saveOk` / `writeOk` model whether writing the staged upload / download
to the fresh temporary file raises; `unlinkOk` models os.unlink;
`tempName` is the name tempfile.NamedTemporaryFile hands out for this
request; `safeBaseDir` is the resolved SAFE_BASE_DIR. -/
structure Env where
  safeBaseDir : List Str
  tempName : Str
  fetch : Str → Except Str FetchResp
  convert_from_path : Str → Int → Int → Int → Except Str (List Image)
  image_to_string : Image → PValue → Except Str Str
  pil_open : Str → Except Str Image
  saveOk : Bool
  writeOk : Bool
  unlinkOk : Bool
  pathExists : List Str → Bool

/-- The dict returned by SimpleOCR.pdf_to_text. -/
structure PdfTextResult where
  success : Bool
  text : Option Str
  num_pages : Nat
  was_truncated : Bool
  error : Option Str
deriving DecidableEq

/-- The page separator literal from pdf_to_text. -/
def pageBreak : Str := str "\n\n--- Page Break ---\n\n"

/-- The OCR loop of pdf_to_text: pytesseract.image_to_string on each
page image in order; the first raised exception aborts the loop. -/
def ocrLoop (env : Env) (lang : PValue) : List Image → Except Str (List Str) × List Effect
  | [] => (.ok [], [])
  | img :: rest =>
    match env.image_to_string img lang with
    | .error e => (.error e, [.ocrImg img])
    | .ok t =>
      match ocrLoop env lang rest with
      | (.error e, tr) => (.error e, .ocrImg img :: tr)
      | (.ok ts, tr) => (.ok (t :: ts), .ocrImg img :: tr)

/-- Model of str.join. -/
def joinSep (sep : Str) : List Str → Str
  | [] => []
  | [x] => x
  | x :: y :: xs => x ++ sep ++ joinSep sep (y :: xs)

/-- From app.py SimpleOCR.pdf_to_text: render pages 1..max_pages via
convert_from_path, set was_truncated to (num_pages >= max_pages), OCR
each page, join with the page-break separator; any exception yields the
failure dict with num_pages 0 and was_truncated False. -/
def pdf_to_text (env : Env) (pdf_path : Str) (max_pages dpi : Int) (lang : PValue) :
    PdfTextResult × List Effect :=
  match env.convert_from_path pdf_path dpi 1 max_pages with
  | .error e => (⟨false, none, 0, false, some e⟩, [.render pdf_path dpi max_pages])
  | .ok images =>
    match ocrLoop env lang images with
    | (.error e, tr) => (⟨false, none, 0, false, some e⟩, .render pdf_path dpi max_pages :: tr)
    | (.ok ts, tr) =>
      (⟨true, some (joinSep pageBreak ts), images.length,
          decide ((images.length : Int) ≥ max_pages), none⟩,
        .render pdf_path dpi max_pages :: tr)

/-- The dict returned by SimpleOCR.image_to_text. -/
structure ImgTextResult where
  success : Bool
  text : Option Str
  error : Option Str
deriving DecidableEq

/-- From app.py SimpleOCR.image_to_text: PIL open then pytesseract;
any exception yields the failure dict. -/
def image_to_text (env : Env) (path : Str) (lang : PValue) : ImgTextResult × List Effect :=
  match env.pil_open path with
  | .error e => (⟨false, none, some e⟩, [.pilOpen path])
  | .ok img =>
    match env.image_to_string img lang with
    | .error e => (⟨false, none, some e⟩, [.pilOpen path, .ocrImg img])
    | .ok t => (⟨true, some t, none⟩, [.pilOpen path, .ocrImg img])

/-- The uploaded file part, as Flask exposes it. -/
structure UploadFile where
  filename : Str
deriving DecidableEq

/-- A key-value view of form fields or a JSON object body. -/
abbrev Payload := List (Str × PValue)

/-- An incoming HTTP request: the optional `file` part of request.files,
request.form, and the optional parsed JSON body. -/
structure Request where
  file : Option UploadFile
  form : Payload
  json : Option Payload

/-- Line 194: `request.form if request.form else (request.get_json(silent=True) or {})`. -/
def payloadOf (req : Request) : Payload :=
  if req.form.isEmpty then req.json.getD [] else req.form

/-- Dict lookup on the payload. -/
def lookupP (payload : Payload) (k : Str) : Option PValue := List.lookup k payload

/-- Lines 196-203 of app.py: int() parses of max_pages (default 10) and
dpi (default 200) — an unparseable value raises, modelled as an error —
followed by the caps min(max_pages, 20) and min(dpi, 300); language
defaults to "eng" and is passed through. -/
def parseParams (payload : Payload) : Except Str (Int × Int × PValue) :=
  match pyInt ((lookupP payload (str "max_pages")).getD (.pint 10)) with
  | none => .error (str "invalid literal for int() with base 10: max_pages")
  | some mp =>
    match pyInt ((lookupP payload (str "dpi")).getD (.pint 200)) with
    | none => .error (str "invalid literal for int() with base 10: dpi")
    | some d =>
      .ok (min mp 20, min d 300, (lookupP payload (str "language")).getD (.pstr (str "eng")))

/-- The input source the elif chain of lines 205-268 selects. -/
inductive Src where
  | upload (f : UploadFile)
  | url (v : PValue)
  | lpath (v : PValue)
  | noInput
deriving DecidableEq

/-- Third arm of the chain: a truthy pdf_path field. -/
def sourceRest2 (payload : Payload) : Src :=
  match lookupP payload (str "pdf_path") with
  | some v => if truthy v then .lpath v else .noInput
  | none => .noInput

/-- Second arm of the chain: a truthy file_url field. -/
def sourceRest (payload : Payload) : Src :=
  match lookupP payload (str "file_url") with
  | some v => if truthy v then .url v else sourceRest2 payload
  | none => sourceRest2 payload

/-- The source-selection priority of lines 205-268: a named multipart
file wins, then file_url, then pdf_path, else no input. -/
def sourceOf (req : Request) (payload : Payload) : Src :=
  match req.file with
  | some f => if f.filename ≠ [] then .upload f else sourceRest payload
  | none => sourceRest payload

/-- The JSON body and status of an /ocr/pdf response. -/
structure PdfResp where
  status : Nat
  success : Bool
  source : Option Str
  text : Option Str
  num_pages : Option Nat
  was_truncated : Option Bool
  character_count : Option Nat
  error : Option Str
deriving DecidableEq

/-- A failure body: success False plus the error message. -/
def errResp (status : Nat) (msg : Str) : PdfResp :=
  ⟨status, false, none, none, none, none, none, some msg⟩

/-- Everything observable about one handled /ocr/pdf request: the
response, the effects performed, and the request-created temporary
files still on disk afterwards. -/
structure PdfOut where
  resp : PdfResp
  trace : List Effect
  fs : List Str
deriving DecidableEq

/-- Lines 270-299 of app.py, entered once a source is staged: run
pdf_to_text, then delete the temp file when we created one (an unlink
failure is swallowed), then build the 200 or 500 response. -/
def afterStage (env : Env) (tmp_path : Str) (should_delete : Bool) (source : Str)
    (mp dpi : Int) (lang : PValue) (trace0 : List Effect) (fs0 : List Str) : PdfOut :=
  let r := pdf_to_text env tmp_path mp dpi lang
  let doDelete := should_delete && !tmp_path.isEmpty
  let trace1 := trace0 ++ r.2 ++ (if doDelete then [.unlink tmp_path] else [])
  let fs1 := if doDelete && env.unlinkOk then fs0.filter (fun p => p != tmp_path) else fs0
  if r.1.success then
    ⟨⟨200, true, some source, r.1.text, some r.1.num_pages, some r.1.was_truncated,
        some (r.1.text.getD []).length, none⟩, trace1, fs1⟩
  else
    ⟨errResp 500 (r.1.error.getD []), trace1, fs1⟩

/-- Lines 208-219: the multipart-upload arm of /ocr/pdf. An exception
in file.save is caught by the outer handler, which does not delete the
just-created temporary file because tmp_path is still None. -/
def uploadBranch (env : Env) (f : UploadFile) (mp dpi : Int) (lang : PValue) : PdfOut :=
  if !(endsWithS (lowerStr f.filename) (str ".pdf")) then
    ⟨errResp 400 (str "File must be a PDF"), [], []⟩
  else
    let t := env.tempName
    if !env.saveOk then
      ⟨errResp 500 (str "exception while saving upload"), [.mkTemp t, .save t], [t]⟩
    else
      afterStage env t true (str "upload") mp dpi lang [.mkTemp t, .save t] [t]

/-- The content guard of lines 233-234 of app.py: the lowercased
declared content type contains "pdf", or the lowercased full URL string
ends in ".pdf". -/
def sniffOk (content_type url : Str) : Bool :=
  strContains (str "pdf") (lowerStr content_type) || endsWithS (lowerStr url) (str ".pdf")

/-- Lines 221-241: the file_url arm of /ocr/pdf. -/
def urlBranch (env : Env) (v : PValue) (mp dpi : Int) (lang : PValue) : PdfOut :=
  let url := stripStr (pyStr v)
  if !is_http_url url then
    ⟨errResp 400 (str "file_url must be http/https"), [], []⟩
  else
    match env.fetch url with
    | .error e => ⟨errResp 500 e, [.fetch url], []⟩
    | .ok r =>
      if r.status ≠ 200 then
        ⟨errResp 400 (str "Failed to fetch file_url (HTTP " ++ natToStr r.status ++ str ")"),
          [.fetch url], []⟩
      else if !(sniffOk r.content_type url) then
        ⟨errResp 400 (str "URL does not appear to be a PDF"), [.fetch url], []⟩
      else
        let t := env.tempName
        if !env.writeOk then
          ⟨errResp 500 (str "exception while writing download"),
            [.fetch url, .mkTemp t, .save t], [t]⟩
        else
          afterStage env t true (str "url") mp dpi lang [.fetch url, .mkTemp t, .save t] [t]

/-- The user path computed at lines 244-250: strip the field, and if
the path is relative, join it onto SAFE_BASE_DIR and resolve. -/
def userPathOf (env : Env) (v : PValue) : List Str :=
  let raw := stripStr (pyStr v)
  if raw.headD ' ' = '/' then splitPath raw
  else resolveComps (env.safeBaseDir ++ splitPath raw)

/-- Lines 243-262: the pdf_path arm of /ocr/pdf: require a .pdf suffix,
then containment under SAFE_BASE_DIR, then existence; use the existing
file in place, never copying and never owning it. -/
def pathBranch (env : Env) (v : PValue) (mp dpi : Int) (lang : PValue) : PdfOut :=
  let up := userPathOf env v
  if lowerStr (pathSuffix up) ≠ str ".pdf" then
    ⟨errResp 400 (str "pdf_path must point to a .pdf file"), [], []⟩
  else if !is_safe_path env.safeBaseDir up then
    ⟨errResp 400 (str "pdf_path is outside the allowed directory"), [], []⟩
  else if !env.pathExists (resolveComps up) then
    ⟨errResp 400 (str "pdf_path not found: " ++ pathName up), [.checkExists (resolveComps up)], []⟩
  else
    afterStage env (pathString up) false (str "path") mp dpi lang
      [.checkExists (resolveComps up)] []

/-- The /ocr/pdf handler (lines 175-299 of app.py): parameter parsing
(an unparseable int raises straight into the outer except, a 500),
source selection by priority, staging, extraction, cleanup, response. -/
def ocrPdf (req : Request) (env : Env) : PdfOut :=
  let payload := payloadOf req
  match parseParams payload with
  | .error e => ⟨errResp 500 e, [], []⟩
  | .ok (mp, dpi, lang) =>
    match sourceOf req payload with
    | .upload f => uploadBranch env f mp dpi lang
    | .url v => urlBranch env v mp dpi lang
    | .lpath v => pathBranch env v mp dpi lang
    | .noInput =>
      ⟨errResp 400 (str "No input provided. Use multipart \"file\", or \"file_url\", or \"pdf_path\"."),
        [], []⟩

/-- The JSON body and status of an /ocr/image response; `success = none`
means the body carries no success field at all. -/
structure ImgResp where
  status : Nat
  success : Option Bool
  text : Option Str
  character_count : Option Nat
  error : Option Str
deriving DecidableEq

/-- Everything observable about one handled /ocr/image request. -/
structure ImgOut where
  resp : ImgResp
  trace : List Effect
  fs : List Str
deriving DecidableEq

/-- The /ocr/image handler (lines 302-340 of app.py). The three
validation failures return only an error field.  The except handler at
line 339 does not delete the temporary file, so an exception raised
after its creation (modelled by saveOk = false) leaves it on disk. -/
def ocrImage (req : Request) (env : Env) : ImgOut :=
  match req.file with
  | none => ⟨⟨400, none, none, none, some (str "No file provided")⟩, [], []⟩
  | some f =>
    if f.filename = [] then
      ⟨⟨400, none, none, none, some (str "No file selected")⟩, [], []⟩
    else if !allowed_file f.filename then
      ⟨⟨400, none, none, none, some (str "Invalid file type. Allowed: PNG, JPG, JPEG")⟩, [], []⟩
    else
      let t := env.tempName
      if !env.saveOk then
        ⟨⟨500, some false, none, none, some (str "exception while saving upload")⟩,
          [.mkTemp t, .save t], [t]⟩
      else
        let lang := (lookupP req.form (str "language")).getD (.pstr (str "eng"))
        let r := image_to_text env t lang
        let trace1 := [Effect.mkTemp t, Effect.save t] ++ r.2 ++ [Effect.unlink t]
        let fs1 := if env.unlinkOk then ([] : List Str) else [t]
        if r.1.success then
          ⟨⟨200, some true, r.1.text, some (r.1.text.getD []).length, none⟩, trace1, fs1⟩
        else
          ⟨⟨500, some false, none, none, r.1.error⟩, trace1, fs1⟩

/-- A benign environment: every capability succeeds, rendering yields
three page images, OCR reads "hi" from every image. -/
def envA : Env where
  safeBaseDir := [str "srv", str "app"]
  tempName := str "/tmp/stage1.pdf"
  fetch := fun _ => .ok ⟨200, str "application/pdf"⟩
  convert_from_path := fun _ _ _ _ => .ok [0, 1, 2]
  image_to_string := fun _ _ => .ok (str "hi")
  pil_open := fun _ => .ok 7
  saveOk := true
  writeOk := true
  unlinkOk := true
  pathExists := fun _ => true

/-- envA with a non-PDF content type on every fetch. -/
def envHtml : Env := { envA with fetch := fun _ => .ok ⟨200, str "text/html"⟩ }

/-- envA in which writing the staged upload raises. -/
def envSaveFail : Env := { envA with saveOk := false }

/-- A request uploading a.pdf with no other fields. -/
def reqUpload : Request := ⟨some ⟨str "a.pdf"⟩, [], none⟩

/-- A request whose max_pages field is not a number. -/
def reqBadInt : Request := ⟨none, [(str "max_pages", .pstr (str "abc"))], none⟩

/-- A JSON request with the traversal path ../secret.pdf. -/
def reqTraversal : Request := ⟨none, [], some [(str "pdf_path", .pstr (str "../secret.pdf"))]⟩

/-- A request with an ftp:// file_url. -/
def reqFtp : Request := ⟨none, [(str "file_url", .pstr (str "ftp://host/file.pdf"))], none⟩

/-- A request whose file_url path ends in .pdf but whose full URL does not. -/
def reqUrlQuery : Request := ⟨none, [(str "file_url", .pstr (str "http://h/a.pdf?x=1"))], none⟩

/-- A request carrying no input source at all. -/
def reqNoInput : Request := ⟨none, [], none⟩

/-- An image-endpoint request uploading doc.pdf. -/
def reqImgPdf : Request := ⟨some ⟨str "doc.pdf"⟩, [], none⟩

/-- An image-endpoint request uploading notes.txt. -/
def reqImgTxt : Request := ⟨some ⟨str "notes.txt"⟩, [], none⟩

/-- A request carrying both an upload and a pdf_path field. -/
def reqBoth : Request := ⟨some ⟨str "a.pdf"⟩, [(str "pdf_path", .pstr (str "b.pdf"))], none⟩

/-- PathSafety as the spec words it: the canonical form of the
candidate is the root itself, or a strict descendant of the root. -/
def safeSpec (base_dir user_path : List Str) : Prop :=
  resolveComps user_path = resolveComps base_dir ∨
    ∃ rest, rest ≠ [] ∧ resolveComps user_path = resolveComps base_dir ++ rest

/-- The remote-PDF sniff as the spec words it: the declared content
type contains "pdf", or the URL's path component ends in ".pdf"
(case-insensitively). -/
def sniffSpec (content_type url : Str) : Bool :=
  strContains (str "pdf") (lowerStr content_type) || endsWithS (lowerStr (urlPath url)) (str ".pdf")

/-- A well-formed /ocr/pdf response body: 200 responses say success,
and non-200 responses say failure and carry an error message. -/
def goodPdfResp (r : PdfResp) : Prop :=
  (r.status = 200 → r.success = true) ∧
    (r.status ≠ 200 → r.success = false ∧ r.error.isSome = true)

theorem isPrefixOf_exists {α : Type} [BEq α] [LawfulBEq α] (l1 l2 : List α) :
    l1.isPrefixOf l2 = true ↔ ∃ t, l1 ++ t = l2 :=
  List.isPrefixOf_iff_prefix

theorem ocrLoop_trace_shape (env : Env) (lang : PValue) (imgs : List Image) (e : Effect)
    (he : e ∈ (ocrLoop env lang imgs).2) : ∃ i, e = .ocrImg i := by
  induction imgs with
  | nil => simp [ocrLoop] at he
  | cons img rest ih =>
    unfold ocrLoop at he
    rcases h1 : env.image_to_string img lang with e1 | t1 <;> rw [h1] at he
    · simp at he; exact ⟨img, he⟩
    · rcases h2 : ocrLoop env lang rest with ⟨r2, tr2⟩
      rw [h2] at he
      have htr2 : (ocrLoop env lang rest).2 = tr2 := by rw [h2]
      cases r2 <;> simp at he <;> rcases he with he | he
      · exact ⟨img, he⟩
      · exact ih (htr2 ▸ he)
      · exact ⟨img, he⟩
      · exact ih (htr2 ▸ he)

theorem pdfText_trace_shape (env : Env) (p : Str) (mp dpi : Int) (lang : PValue) (e : Effect)
    (he : e ∈ (pdf_to_text env p mp dpi lang).2) :
    e = .render p dpi mp ∨ ∃ i, e = .ocrImg i := by
  unfold pdf_to_text at he
  rcases h1 : env.convert_from_path p dpi 1 mp with e1 | imgs <;> rw [h1] at he <;>
    dsimp only at he
  · simp at he; exact .inl he
  · rcases h2 : ocrLoop env lang imgs with ⟨r2, tr2⟩
    rw [h2] at he
    have htr2 : (ocrLoop env lang imgs).2 = tr2 := by rw [h2]
    cases r2 <;> simp at he <;> rcases he with he | he
    · exact .inl he
    · exact .inr (ocrLoop_trace_shape env lang imgs e (htr2 ▸ he))
    · exact .inl he
    · exact .inr (ocrLoop_trace_shape env lang imgs e (htr2 ▸ he))

theorem afterStage_trace (env : Env) (tmp : Str) (sd : Bool) (src : Str)
    (mp dpi : Int) (lang : PValue) (tr0 : List Effect) (fs0 : List Str) :
    (afterStage env tmp sd src mp dpi lang tr0 fs0).trace =
      tr0 ++ (pdf_to_text env tmp mp dpi lang).2 ++
        (if sd && !tmp.isEmpty then [.unlink tmp] else []) := by
  simp only [afterStage]
  split <;> rfl

theorem afterStage_fs (env : Env) (tmp : Str) (sd : Bool) (src : Str)
    (mp dpi : Int) (lang : PValue) (tr0 : List Effect) (fs0 : List Str) :
    (afterStage env tmp sd src mp dpi lang tr0 fs0).fs =
      if (sd && !tmp.isEmpty) && env.unlinkOk then fs0.filter (fun p => p != tmp) else fs0 := by
  simp only [afterStage]
  split <;> rfl

theorem afterStage_good (env : Env) (tmp : Str) (sd : Bool) (src : Str)
    (mp dpi : Int) (lang : PValue) (tr0 : List Effect) (fs0 : List Str) :
    goodPdfResp (afterStage env tmp sd src mp dpi lang tr0 fs0).resp := by
  simp only [afterStage, goodPdfResp]
  split <;> simp [errResp]


theorem errResp_good (st : Nat) (msg : Str) (h : st ≠ 200) : goodPdfResp (errResp st msg) := by
  simp [goodPdfResp, errResp, h]

theorem uploadBranch_cases (env : Env) (f : UploadFile) (mp dpi : Int) (lang : PValue) :
    (∃ msg, uploadBranch env f mp dpi lang = ⟨errResp 400 msg, [], []⟩) ∨
    (∃ msg, env.saveOk = false ∧ uploadBranch env f mp dpi lang =
        ⟨errResp 500 msg, [.mkTemp env.tempName, .save env.tempName], [env.tempName]⟩) ∨
    (env.saveOk = true ∧ uploadBranch env f mp dpi lang =
        afterStage env env.tempName true (str "upload") mp dpi lang
          [.mkTemp env.tempName, .save env.tempName] [env.tempName]) := by
  simp only [uploadBranch]
  split
  · exact .inl ⟨_, rfl⟩
  · split
    · next h => exact .inr (.inl ⟨_, by simpa using h, rfl⟩)
    · next h => exact .inr (.inr ⟨by simpa using h, rfl⟩)

theorem urlBranch_cases (env : Env) (v : PValue) (mp dpi : Int) (lang : PValue) :
    (∃ st msg, urlBranch env v mp dpi lang = ⟨errResp st msg, [], []⟩ ∧ st ≠ 200) ∨
    (∃ st msg, urlBranch env v mp dpi lang =
        ⟨errResp st msg, [.fetch (stripStr (pyStr v))], []⟩ ∧ st ≠ 200) ∨
    (∃ msg, env.writeOk = false ∧ urlBranch env v mp dpi lang =
        ⟨errResp 500 msg,
          [.fetch (stripStr (pyStr v)), .mkTemp env.tempName, .save env.tempName],
          [env.tempName]⟩) ∨
    (env.writeOk = true ∧ urlBranch env v mp dpi lang =
        afterStage env env.tempName true (str "url") mp dpi lang
          [.fetch (stripStr (pyStr v)), .mkTemp env.tempName, .save env.tempName]
          [env.tempName]) := by
  simp only [urlBranch]
  split
  · exact .inl ⟨400, _, rfl, by omega⟩
  · split
    · exact .inr (.inl ⟨500, _, rfl, by omega⟩)
    · split
      · exact .inr (.inl ⟨400, _, rfl, by omega⟩)
      · split
        · exact .inr (.inl ⟨400, _, rfl, by omega⟩)
        · split
          · next h => exact .inr (.inr (.inl ⟨_, by simpa using h, rfl⟩))
          · next h => exact .inr (.inr (.inr ⟨by simpa using h, rfl⟩))

theorem pathBranch_cases (env : Env) (v : PValue) (mp dpi : Int) (lang : PValue) :
    (∃ msg, pathBranch env v mp dpi lang = ⟨errResp 400 msg, [], []⟩) ∨
    (∃ msg, pathBranch env v mp dpi lang =
        ⟨errResp 400 msg, [.checkExists (resolveComps (userPathOf env v))], []⟩) ∨
    pathBranch env v mp dpi lang =
      afterStage env (pathString (userPathOf env v)) false (str "path") mp dpi lang
        [.checkExists (resolveComps (userPathOf env v))] [] := by
  simp only [pathBranch]
  split
  · exact .inl ⟨_, rfl⟩
  · split
    · exact .inl ⟨_, rfl⟩
    · split
      · exact .inr (.inl ⟨_, rfl⟩)
      · exact .inr (.inr rfl)

theorem mem_unlink_aux (e : Effect) (tmp : Str) (c : Bool)
    (he : e ∈ (if c then [Effect.unlink tmp] else [])) : e = .unlink tmp := by
  split at he <;> simp at he
  exact he

theorem uploadBranch_trace_mem (env : Env) (f : UploadFile) (mp dpi : Int) (lang : PValue)
    (e : Effect) (he : e ∈ (uploadBranch env f mp dpi lang).trace) :
    e = .mkTemp env.tempName ∨ e = .save env.tempName ∨ e = .render env.tempName dpi mp ∨
      (∃ i, e = .ocrImg i) ∨ e = .unlink env.tempName := by
  rcases uploadBranch_cases env f mp dpi lang with ⟨msg, hc⟩ | ⟨msg, hw, hc⟩ | ⟨hw, hc⟩ <;>
    rw [hc] at he
  · simp at he
  · simp at he
    rcases he with he | he
    · exact .inl he
    · exact .inr (.inl he)
  · rw [afterStage_trace] at he
    rcases List.mem_append.mp he with he | he
    · rcases List.mem_append.mp he with he | he
      · simp at he
        rcases he with he | he
        · exact .inl he
        · exact .inr (.inl he)
      · rcases pdfText_trace_shape _ _ _ _ _ _ he with h | h
        · exact .inr (.inr (.inl h))
        · exact .inr (.inr (.inr (.inl h)))
    · exact .inr (.inr (.inr (.inr (mem_unlink_aux _ _ _ he))))

theorem urlBranch_trace_mem (env : Env) (v : PValue) (mp dpi : Int) (lang : PValue)
    (e : Effect) (he : e ∈ (urlBranch env v mp dpi lang).trace) :
    e = .fetch (stripStr (pyStr v)) ∨ e = .mkTemp env.tempName ∨ e = .save env.tempName ∨
      e = .render env.tempName dpi mp ∨ (∃ i, e = .ocrImg i) ∨ e = .unlink env.tempName := by
  rcases urlBranch_cases env v mp dpi lang with ⟨st, msg, hc, hst⟩ | ⟨st, msg, hc, hst⟩ |
    ⟨msg, hw, hc⟩ | ⟨hw, hc⟩ <;> rw [hc] at he
  · simp at he
  · simp at he; exact .inl he
  · simp at he
    rcases he with he | he | he
    · exact .inl he
    · exact .inr (.inl he)
    · exact .inr (.inr (.inl he))
  · rw [afterStage_trace] at he
    rcases List.mem_append.mp he with he | he
    · rcases List.mem_append.mp he with he | he
      · simp at he
        rcases he with he | he | he
        · exact .inl he
        · exact .inr (.inl he)
        · exact .inr (.inr (.inl he))
      · rcases pdfText_trace_shape _ _ _ _ _ _ he with h | h
        · exact .inr (.inr (.inr (.inl h)))
        · exact .inr (.inr (.inr (.inr (.inl h))))
    · exact .inr (.inr (.inr (.inr (.inr (mem_unlink_aux _ _ _ he)))))

theorem pathBranch_trace_mem (env : Env) (v : PValue) (mp dpi : Int) (lang : PValue)
    (e : Effect) (he : e ∈ (pathBranch env v mp dpi lang).trace) :
    e = .checkExists (resolveComps (userPathOf env v)) ∨
      e = .render (pathString (userPathOf env v)) dpi mp ∨ (∃ i, e = .ocrImg i) := by
  rcases pathBranch_cases env v mp dpi lang with ⟨msg, hc⟩ | ⟨msg, hc⟩ | hc <;> rw [hc] at he
  · simp at he
  · simp at he; exact .inl he
  · rw [afterStage_trace] at he
    rcases List.mem_append.mp he with he | he
    · rcases List.mem_append.mp he with he | he
      · simp at he; exact .inl he
      · rcases pdfText_trace_shape _ _ _ _ _ _ he with h | h
        · exact .inr (.inl h)
        · exact .inr (.inr h)
    · simp at he

theorem uploadBranch_fs (env : Env) (f : UploadFile) (mp dpi : Int) (lang : PValue)
    (hs : env.saveOk = true) (hu : env.unlinkOk = true) (ht : env.tempName ≠ []) :
    (uploadBranch env f mp dpi lang).fs = [] := by
  rcases uploadBranch_cases env f mp dpi lang with ⟨msg, hc⟩ | ⟨msg, hw, hc⟩ | ⟨hw, hc⟩
  · rw [hc]
  · rw [hw] at hs; cases hs
  · rw [hc, afterStage_fs]
    simp [hu, ht]

theorem urlBranch_fs (env : Env) (v : PValue) (mp dpi : Int) (lang : PValue)
    (hw2 : env.writeOk = true) (hu : env.unlinkOk = true) (ht : env.tempName ≠ []) :
    (urlBranch env v mp dpi lang).fs = [] := by
  rcases urlBranch_cases env v mp dpi lang with ⟨st, msg, hc, hst⟩ | ⟨st, msg, hc, hst⟩ |
    ⟨msg, hw, hc⟩ | ⟨hw, hc⟩
  · rw [hc]
  · rw [hc]
  · rw [hw] at hw2; cases hw2
  · rw [hc, afterStage_fs]
    simp [hu, ht]

theorem pathBranch_fs (env : Env) (v : PValue) (mp dpi : Int) (lang : PValue) :
    (pathBranch env v mp dpi lang).fs = [] := by
  rcases pathBranch_cases env v mp dpi lang with ⟨msg, hc⟩ | ⟨msg, hc⟩ | hc
  · rw [hc]
  · rw [hc]
  · rw [hc, afterStage_fs]
    simp

theorem uploadBranch_good (env : Env) (f : UploadFile) (mp dpi : Int) (lang : PValue) :
    goodPdfResp (uploadBranch env f mp dpi lang).resp := by
  rcases uploadBranch_cases env f mp dpi lang with ⟨msg, hc⟩ | ⟨msg, hw, hc⟩ | ⟨hw, hc⟩ <;> rw [hc]
  · exact errResp_good _ _ (by omega)
  · exact errResp_good _ _ (by omega)
  · exact afterStage_good _ _ _ _ _ _ _ _ _

theorem urlBranch_good (env : Env) (v : PValue) (mp dpi : Int) (lang : PValue) :
    goodPdfResp (urlBranch env v mp dpi lang).resp := by
  rcases urlBranch_cases env v mp dpi lang with ⟨st, msg, hc, hst⟩ | ⟨st, msg, hc, hst⟩ |
    ⟨msg, hw, hc⟩ | ⟨hw, hc⟩ <;> rw [hc]
  · exact errResp_good _ _ hst
  · exact errResp_good _ _ hst
  · exact errResp_good _ _ (by omega)
  · exact afterStage_good _ _ _ _ _ _ _ _ _

theorem pathBranch_good (env : Env) (v : PValue) (mp dpi : Int) (lang : PValue) :
    goodPdfResp (pathBranch env v mp dpi lang).resp := by
  rcases pathBranch_cases env v mp dpi lang with ⟨msg, hc⟩ | ⟨msg, hc⟩ | hc <;> rw [hc]
  · exact errResp_good _ _ (by omega)
  · exact errResp_good _ _ (by omega)
  · exact afterStage_good _ _ _ _ _ _ _ _ _

theorem ocrPdf_good (req : Request) (env : Env) : goodPdfResp (ocrPdf req env).resp := by
  simp only [ocrPdf]
  rcases hp : parseParams (payloadOf req) with e | ⟨mp, d, lang⟩
  · exact errResp_good _ _ (by omega)
  · rcases hs : sourceOf req (payloadOf req) with f | v | v | _
    · exact uploadBranch_good env f mp d lang
    · exact urlBranch_good env v mp d lang
    · exact pathBranch_good env v mp d lang
    · exact errResp_good _ _ (by omega)

theorem image_to_text_err (env : Env) (p : Str) (lang : PValue) :
    (image_to_text env p lang).1.success = true ∨
      ((image_to_text env p lang).1.success = false ∧
        (image_to_text env p lang).1.error.isSome = true) := by
  unfold image_to_text
  rcases h : env.pil_open p with e | img
  · simp
  · rcases h2 : env.image_to_string img lang with e | t <;> simp [h2]

theorem ocrLoop_unlinkIrrel (env : Env) (b : Bool) (lang : PValue) (imgs : List Image) :
    ocrLoop { env with unlinkOk := b } lang imgs = ocrLoop env lang imgs := by
  induction imgs with
  | nil => rfl
  | cons img rest ih =>
    unfold ocrLoop
    rw [ih]

theorem pdfText_unlinkIrrel (env : Env) (b : Bool) (p : Str) (mp dpi : Int) (lang : PValue) :
    pdf_to_text { env with unlinkOk := b } p mp dpi lang = pdf_to_text env p mp dpi lang := by
  simp only [pdf_to_text, ocrLoop_unlinkIrrel]

theorem afterStage_respIrrel (env : Env) (b : Bool) (tmp : Str) (sd : Bool) (src : Str)
    (mp dpi : Int) (lang : PValue) (tr0 : List Effect) (fs0 : List Str) :
    (afterStage { env with unlinkOk := b } tmp sd src mp dpi lang tr0 fs0).resp =
      (afterStage env tmp sd src mp dpi lang tr0 fs0).resp := by
  simp only [afterStage, pdfText_unlinkIrrel]
  split <;> rfl

theorem uploadBranch_respIrrel (env : Env) (b : Bool) (f : UploadFile) (mp dpi : Int)
    (lang : PValue) :
    (uploadBranch { env with unlinkOk := b } f mp dpi lang).resp =
      (uploadBranch env f mp dpi lang).resp := by
  simp only [uploadBranch]
  split
  · rfl
  · split
    · rfl
    · exact afterStage_respIrrel env b _ _ _ _ _ _ _ _

theorem urlBranch_respIrrel (env : Env) (b : Bool) (v : PValue) (mp dpi : Int)
    (lang : PValue) :
    (urlBranch { env with unlinkOk := b } v mp dpi lang).resp =
      (urlBranch env v mp dpi lang).resp := by
  simp only [urlBranch]
  split
  · rfl
  · rcases h : env.fetch (stripStr (pyStr v)) with e | r
    · rfl
    · dsimp only
      split
      · rfl
      · split
        · rfl
        · split
          · rfl
          · exact afterStage_respIrrel env b _ _ _ _ _ _ _ _

theorem userPathOf_unlinkIrrel (env : Env) (b : Bool) (v : PValue) :
    userPathOf { env with unlinkOk := b } v = userPathOf env v := rfl

theorem pathBranch_respIrrel (env : Env) (b : Bool) (v : PValue) (mp dpi : Int)
    (lang : PValue) :
    (pathBranch { env with unlinkOk := b } v mp dpi lang).resp =
      (pathBranch env v mp dpi lang).resp := by
  simp only [pathBranch, userPathOf_unlinkIrrel]
  split
  · rfl
  · split
    · rfl
    · split
      · rfl
      · exact afterStage_respIrrel env b _ _ _ _ _ _ _ _

theorem ocrPdf_respIrrel (req : Request) (env : Env) (b : Bool) :
    (ocrPdf req { env with unlinkOk := b }).resp = (ocrPdf req env).resp := by
  simp only [ocrPdf]
  rcases hp : parseParams (payloadOf req) with e | ⟨mp, d, lang⟩
  · rfl
  · rcases hs : sourceOf req (payloadOf req) with f | v | v | _
    · exact uploadBranch_respIrrel env b f mp d lang
    · exact urlBranch_respIrrel env b v mp d lang
    · exact pathBranch_respIrrel env b v mp d lang
    · rfl

theorem ocrPdf_fs_clean (req : Request) (env : Env) (hs : env.saveOk = true)
    (hw : env.writeOk = true) (hu : env.unlinkOk = true) (ht : env.tempName ≠ []) :
    (ocrPdf req env).fs = [] := by
  simp only [ocrPdf]
  rcases hp : parseParams (payloadOf req) with e | ⟨mp, d, lang⟩
  · rfl
  · rcases hsrc : sourceOf req (payloadOf req) with f | v | v | _
    · exact uploadBranch_fs env f mp d lang hs hu ht
    · exact urlBranch_fs env v mp d lang hw hu ht
    · exact pathBranch_fs env v mp d lang
    · rfl

theorem ocrPdf_unlink_only (req : Request) (env : Env) (p : Str)
    (he : Effect.unlink p ∈ (ocrPdf req env).trace) : p = env.tempName := by
  revert he
  simp only [ocrPdf]
  rcases hp : parseParams (payloadOf req) with e | ⟨mp, d, lang⟩
  · intro he; simp at he
  · rcases hsrc : sourceOf req (payloadOf req) with f | v | v | _ <;> intro he
    · rcases uploadBranch_trace_mem env f mp d lang _ he with h | h | h | ⟨i, h⟩ | h <;>
        simp_all
    · rcases urlBranch_trace_mem env v mp d lang _ he with h | h | h | h | ⟨i, h⟩ | h <;>
        simp_all
    · rcases pathBranch_trace_mem env v mp d lang _ he with h | h | ⟨i, h⟩ <;> simp_all
    · simp at he

theorem ocrImage_fs_clean (req : Request) (env : Env) (hs : env.saveOk = true)
    (hu : env.unlinkOk = true) : (ocrImage req env).fs = [] := by
  simp only [ocrImage]
  rcases req.file with _ | f
  · rfl
  · split
    · rfl
    · split
      · rfl
      · rw [hs]
        simp only [Bool.not_true]
        rw [if_neg Bool.false_ne_true, apply_ite ImgOut.fs]
        simp [hu]
        intro h2
        rw [apply_ite ImgOut.fs]
        simp

theorem sourceRest2_falsy (payload : Payload)
    (h : ∀ v, lookupP payload (str "pdf_path") = some v → truthy v = false) :
    sourceRest2 payload = .noInput := by
  unfold sourceRest2
  rcases hv : lookupP payload (str "pdf_path") with _ | v
  · rfl
  · simp [h v hv]

theorem sourceRest_falsy (payload : Payload)
    (h1 : ∀ v, lookupP payload (str "file_url") = some v → truthy v = false)
    (h2 : ∀ v, lookupP payload (str "pdf_path") = some v → truthy v = false) :
    sourceRest payload = .noInput := by
  unfold sourceRest
  rcases hv : lookupP payload (str "file_url") with _ | v
  · exact sourceRest2_falsy payload h2
  · dsimp only
    rw [h1 v hv]
    simp only [Bool.false_eq_true, if_false]
    exact sourceRest2_falsy payload h2

theorem sourceOf_upload (req : Request) (payload : Payload) (f : UploadFile)
    (hf : req.file = some f) (hn : f.filename ≠ []) : sourceOf req payload = .upload f := by
  unfold sourceOf
  rw [hf]
  simp [hn]

theorem sourceOf_noInput (req : Request) (payload : Payload)
    (hf : ∀ f, req.file = some f → f.filename = [])
    (h1 : ∀ v, lookupP payload (str "file_url") = some v → truthy v = false)
    (h2 : ∀ v, lookupP payload (str "pdf_path") = some v → truthy v = false) :
    sourceOf req payload = .noInput := by
  unfold sourceOf
  rcases hfile : req.file with _ | f
  · exact sourceRest_falsy payload h1 h2
  · dsimp only
    rw [hf f hfile]
    simp only [ne_eq, not_true_eq_false, if_false]
    exact sourceRest_falsy payload h1 h2

theorem ocrImage_resp_cases (req : Request) (env : Env) :
    ((ocrImage req env).resp.status = 200 ∧ (ocrImage req env).resp.success = some true ∧
      (ocrImage req env).resp.error = none) ∨
    ((ocrImage req env).resp.status = 400 ∧ (ocrImage req env).resp.success = none ∧
      (ocrImage req env).resp.error.isSome = true) ∨
    ((ocrImage req env).resp.status = 500 ∧ (ocrImage req env).resp.success = some false ∧
      (ocrImage req env).resp.error.isSome = true) := by
  simp only [ocrImage]
  rcases hf : req.file with _ | f
  · exact .inr (.inl ⟨rfl, rfl, rfl⟩)
  · repeat' split
    all_goals
      first
        | exact .inr (.inl ⟨rfl, rfl, rfl⟩)
        | exact .inr (.inr ⟨rfl, rfl, rfl⟩)
        | exact .inl ⟨rfl, rfl, rfl⟩
        | (rcases image_to_text_err env env.tempName
              ((lookupP req.form (str "language")).getD (.pstr (str "eng"))) with hok | hpair <;>
            first
              | exact absurd hok (by assumption)
              | exact .inr (.inr ⟨rfl, rfl, by simpa using hpair.2⟩))

/-- C1: in pdf_to_text, when rasterization returns a list of page
images and the per-page OCR loop completes, the returned was_truncated
flag equals the decision of (number of returned images >= max_pages);
in particular a document whose rendered page count equals max_pages
exactly is reported truncated. -/
theorem C1_truncation_flag (env : Env) (p : Str) (mp dpi : Int) (lang : PValue)
    (imgs : List Image) (ts : List Str) (tr : List Effect)
    (hconv : env.convert_from_path p dpi 1 mp = .ok imgs)
    (hocr : ocrLoop env lang imgs = (.ok ts, tr)) :
    (pdf_to_text env p mp dpi lang).1.was_truncated = decide ((imgs.length : Int) ≥ mp) ∧
      ((imgs.length : Int) = mp → (pdf_to_text env p mp dpi lang).1.was_truncated = true) := by
  unfold pdf_to_text
  rw [hconv]
  dsimp only
  rw [hocr]
  refine ⟨rfl, fun h => ?_⟩
  simp [h]

/-- Witness for C1 at a concrete three-page environment with
max_pages = 3: the flag evaluates and the boundary case is truncated. -/
theorem C1_truncation_flag_witness :
    (pdf_to_text envA (str "/x.pdf") 3 200 (.pstr (str "eng"))).1.was_truncated
        = decide ((([0, 1, 2] : List Image).length : Int) ≥ 3) ∧
      ((([0, 1, 2] : List Image).length : Int) = 3 →
        (pdf_to_text envA (str "/x.pdf") 3 200 (.pstr (str "eng"))).1.was_truncated = true) :=
  C1_truncation_flag envA (str "/x.pdf") 3 200 (.pstr (str "eng")) [0, 1, 2]
    [str "hi", str "hi", str "hi"] [.ocrImg 0, .ocrImg 1, .ocrImg 2] rfl rfl

/-- C2: is_safe_path base cand is true exactly when the canonicalized
candidate equals the canonicalized root or is a descendant of it; and
an /ocr/pdf request whose selected pdf_path fails that containment is
rejected with 400 and success False having performed no side effect at
all — in particular the file is never read or passed to extraction. -/
theorem C2_path_safety :
    (∀ base cand, is_safe_path base cand = true ↔ safeSpec base cand) ∧
    (∀ req env mp d lang v, parseParams (payloadOf req) = .ok (mp, d, lang) →
      sourceOf req (payloadOf req) = .lpath v →
      is_safe_path env.safeBaseDir (userPathOf env v) = false →
      (ocrPdf req env).resp.status = 400 ∧ (ocrPdf req env).resp.success = false ∧
        (ocrPdf req env).trace = []) := by
  constructor
  · intro base cand
    unfold is_safe_path safeSpec
    rw [isPrefixOf_exists]
    constructor
    · rintro ⟨t, ht⟩
      rcases t with _ | ⟨c, t⟩
      · left; rw [← ht]; simp
      · right; exact ⟨c :: t, by simp, ht.symm⟩
    · rintro (h | ⟨rest, hne, hr⟩)
      · exact ⟨[], by simp [h]⟩
      · exact ⟨rest, hr.symm⟩
  · intro req env mp d lang v hp hs hout
    simp only [ocrPdf, hp, hs]
    simp only [pathBranch]
    split
    · exact ⟨rfl, rfl, rfl⟩
    · rw [hout]
      simp only [Bool.not_false, if_true]
      simp [errResp]

/-- Witness for C2: the containment test is exercised at a concrete
pair, and the request with pdf_path "../secret.pdf" under safe root
/srv/app is rejected 400 with an empty effect trace. -/
theorem C2_path_safety_witness :
    (is_safe_path [str "a"] [str "a", str "b"] = true ↔ safeSpec [str "a"] [str "a", str "b"]) ∧
    ((ocrPdf reqTraversal envA).resp.status = 400 ∧
      (ocrPdf reqTraversal envA).resp.success = false ∧
      (ocrPdf reqTraversal envA).trace = []) :=
  ⟨C2_path_safety.1 [str "a"] [str "a", str "b"],
   C2_path_safety.2 reqTraversal envA 10 200 (.pstr (str "eng")) (.pstr (str "../secret.pdf"))
     rfl rfl (by decide)⟩

/-- C3 counterexample: with an upload whose staging write raises, the
handler answers 500 but the owned temporary file is still on disk,
refuting deletion on any exception raised before extraction. -/
theorem C3_cleanup_counterexample :
    (ocrPdf reqUpload envSaveFail).resp.status = 500 ∧
      (ocrPdf reqUpload envSaveFail).fs = [str "/tmp/stage1.pdf"] := by
  decide

/-- C3 (amended): when the staging writes and the deletions succeed and
the temp name is nonempty, no request-created temporary file survives
an /ocr/pdf request; unlink is only ever invoked on the
request-created temporary file, never on a LocalPath file; a deletion
failure never changes the /ocr/pdf response; and /ocr/image also leaves
no temporary file when its staging write and deletion succeed.  (The
deletion guarantee does not extend to an exception raised during the
staging write itself, nor to /ocr/image exceptions: see the
counterexample.) -/
theorem C3_cleanup_amended :
    (∀ req env, env.saveOk = true → env.writeOk = true → env.unlinkOk = true →
      env.tempName ≠ [] → (ocrPdf req env).fs = []) ∧
    (∀ req env p, Effect.unlink p ∈ (ocrPdf req env).trace → p = env.tempName) ∧
    (∀ req env b, (ocrPdf req { env with unlinkOk := b }).resp = (ocrPdf req env).resp) ∧
    (∀ req env, env.saveOk = true → env.unlinkOk = true → (ocrImage req env).fs = []) :=
  ⟨fun req env hs hw hu ht => ocrPdf_fs_clean req env hs hw hu ht,
   fun req env p h => ocrPdf_unlink_only req env p h,
   fun req env b => ocrPdf_respIrrel req env b,
   fun req env hs hu => ocrImage_fs_clean req env hs hu⟩

/-- Witness for C3 (amended) at concrete benign requests. -/
theorem C3_cleanup_amended_witness :
    (ocrPdf reqUpload envA).fs = [] ∧ (ocrImage reqImgPdf envA).fs = [] :=
  ⟨C3_cleanup_amended.1 reqUpload envA rfl rfl rfl (by decide),
   C3_cleanup_amended.2.2.2 reqImgPdf envA rfl rfl⟩

/-- C4: missing max_pages and dpi default to 10 and 200; present
parseable values are used as min(value, 20) and min(value, 300), never
rejected for being large; there is no lower bound, so 0 or negative
values pass through the min caps unchanged; and every rasterization the
handler performs uses exactly the normalized last page and dpi. -/
theorem C4_param_clamping :
    (∀ payload, lookupP payload (str "max_pages") = none →
      lookupP payload (str "dpi") = none →
      parseParams payload =
        .ok (10, 200, (lookupP payload (str "language")).getD (.pstr (str "eng")))) ∧
    (∀ payload v w m d, lookupP payload (str "max_pages") = some v → pyInt v = some m →
      lookupP payload (str "dpi") = some w → pyInt w = some d →
      parseParams payload = .ok (min m 20, min d 300,
        (lookupP payload (str "language")).getD (.pstr (str "eng")))) ∧
    (parseParams [(str "max_pages", .pint (-5)), (str "dpi", .pint 0)]
      = .ok (-5, 0, .pstr (str "eng"))) ∧
    (∀ req env p dd ll, Effect.render p dd ll ∈ (ocrPdf req env).trace →
      ∃ lang, parseParams (payloadOf req) = .ok (ll, dd, lang)) := by
  refine ⟨?_, ?_, rfl, ?_⟩
  · intro payload h1 h2
    unfold parseParams
    rw [h1, h2]
    rfl
  · intro payload v w m d hv hm hw hd
    unfold parseParams
    rw [hv]
    dsimp only [Option.getD]
    rw [hm]
    dsimp only
    rw [hw]
    dsimp only [Option.getD]
    rw [hd]
  · intro req env p dd ll hmem
    revert hmem
    simp only [ocrPdf]
    rcases hp : parseParams (payloadOf req) with e | ⟨mp, d, lang⟩
    · intro hmem; simp at hmem
    · rcases hsrc : sourceOf req (payloadOf req) with f | v | v | _ <;> intro hmem
      · rcases uploadBranch_trace_mem env f mp d lang _ hmem with h | h | h | ⟨i, h⟩ | h <;>
          first
            | (injection h with ha hb hc
               exact ⟨lang, by rw [hb, hc]⟩)
            | exact absurd h (by simp)
      · rcases urlBranch_trace_mem env v mp d lang _ hmem with h | h | h | h | ⟨i, h⟩ | h <;>
          first
            | (injection h with ha hb hc
               exact ⟨lang, by rw [hb, hc]⟩)
            | exact absurd h (by simp)
      · rcases pathBranch_trace_mem env v mp d lang _ hmem with h | h | ⟨i, h⟩ <;>
          first
            | (injection h with ha hb hc
               exact ⟨lang, by rw [hb, hc]⟩)
            | exact absurd h (by simp)
      · simp at hmem

/-- Witness for C4: values 25 and 400 are clamped to the caps. -/
theorem C4_param_clamping_witness :
    parseParams [(str "max_pages", .pstr (str "25")), (str "dpi", .pstr (str "400"))]
      = .ok (min 25 20, min 400 300, .pstr (str "eng")) :=
  C4_param_clamping.2.1 [(str "max_pages", .pstr (str "25")), (str "dpi", .pstr (str "400"))]
    (.pstr (str "25")) (.pstr (str "400")) 25 400 rfl rfl rfl rfl

/-- C5 counterexample: a request whose max_pages is the string "abc"
fails with HTTP 500, not with a 400-class error. -/
theorem C5_nonint_counterexample :
    (ocrPdf reqBadInt envA).resp.status = 500 ∧ (ocrPdf reqBadInt envA).resp.status ≠ 400 := by
  decide

/-- C5 (amended): a present but unparseable max_pages or dpi raises in
int() and lands in the outer exception handler: the request fails with
HTTP 500 carrying success False and an error message, before any side
effect. -/
theorem C5_nonint_amended (req : Request) (env : Env)
    (h : (∃ v, lookupP (payloadOf req) (str "max_pages") = some v ∧ pyInt v = none) ∨
         (∃ v, lookupP (payloadOf req) (str "dpi") = some v ∧ pyInt v = none)) :
    (ocrPdf req env).resp.status = 500 ∧ (ocrPdf req env).resp.success = false ∧
      (ocrPdf req env).resp.error.isSome = true ∧ (ocrPdf req env).trace = [] := by
  have hp : ∃ e, parseParams (payloadOf req) = .error e := by
    unfold parseParams
    rcases h with ⟨v, hv, hnone⟩ | ⟨v, hv, hnone⟩
    · rw [hv]
      dsimp only [Option.getD]
      rw [hnone]
      exact ⟨_, rfl⟩
    · rcases hmp : pyInt ((lookupP (payloadOf req) (str "max_pages")).getD (.pint 10)) with _ | m
      · exact ⟨_, rfl⟩
      · dsimp only
        rw [hv]
        dsimp only [Option.getD]
        rw [hnone]
        exact ⟨_, rfl⟩
  rcases hp with ⟨e, hp⟩
  simp only [ocrPdf, hp]
  simp [errResp]

/-- Witness for C5 (amended) at the concrete request with
max_pages = "abc". -/
theorem C5_nonint_amended_witness :
    (ocrPdf reqBadInt envA).resp.status = 500 ∧ (ocrPdf reqBadInt envA).resp.success = false ∧
      (ocrPdf reqBadInt envA).resp.error.isSome = true ∧ (ocrPdf reqBadInt envA).trace = [] :=
  C5_nonint_amended reqBadInt envA (.inl ⟨.pstr (str "abc"), rfl, rfl⟩)

/-- C6: input selection follows the fixed priority upload > file_url >
pdf_path: a named upload always wins the selection; with an upload
present the handler performs no network fetch and no local-path access
no matter what else the request carries; and when none of the three
sources is present (and the parameters parse) the request fails 400
with the no-input error. -/
theorem C6_source_priority :
    (∀ req payload f, req.file = some f → f.filename ≠ [] → sourceOf req payload = .upload f) ∧
    (∀ req env f, req.file = some f → f.filename ≠ [] →
      (∀ u, Effect.fetch u ∉ (ocrPdf req env).trace) ∧
      (∀ c, Effect.checkExists c ∉ (ocrPdf req env).trace)) ∧
    (∀ req env mp d lang, parseParams (payloadOf req) = .ok (mp, d, lang) →
      (∀ f, req.file = some f → f.filename = []) →
      (∀ v, lookupP (payloadOf req) (str "file_url") = some v → truthy v = false) →
      (∀ v, lookupP (payloadOf req) (str "pdf_path") = some v → truthy v = false) →
      (ocrPdf req env).resp.status = 400 ∧
        (ocrPdf req env).resp.error =
          some (str "No input provided. Use multipart \"file\", or \"file_url\", or \"pdf_path\".")) := by
  refine ⟨fun req payload f hf hn => sourceOf_upload req payload f hf hn, ?_, ?_⟩
  · intro req env f hf hn
    have key : ∀ e, e ∈ (ocrPdf req env).trace →
        e = .mkTemp env.tempName ∨ e = .save env.tempName ∨
          (∃ dd ll, e = .render env.tempName dd ll) ∨ (∃ i, e = .ocrImg i) ∨
          e = .unlink env.tempName := by
      intro e he
      revert he
      simp only [ocrPdf]
      rcases hp : parseParams (payloadOf req) with er | ⟨mp, d, lang⟩
      · intro he; simp at he
      · rw [sourceOf_upload req (payloadOf req) f hf hn]
        intro he
        rcases uploadBranch_trace_mem env f mp d lang _ he with h | h | h | ⟨i, h⟩ | h
        · exact .inl h
        · exact .inr (.inl h)
        · exact .inr (.inr (.inl ⟨d, mp, h⟩))
        · exact .inr (.inr (.inr (.inl ⟨i, h⟩)))
        · exact .inr (.inr (.inr (.inr h)))
    constructor
    · intro u hu
      rcases key _ hu with h | h | ⟨dd, ll, h⟩ | ⟨i, h⟩ | h <;> simp at h
    · intro c hc
      rcases key _ hc with h | h | ⟨dd, ll, h⟩ | ⟨i, h⟩ | h <;> simp at h
  · intro req env mp d lang hp hf h1 h2
    simp only [ocrPdf, hp]
    rw [sourceOf_noInput req (payloadOf req) hf h1 h2]
    simp [errResp]

/-- Witness for C6: with both an upload and a pdf_path the upload is
selected and no fetch is performed; the empty request gets the 400
no-input error. -/
theorem C6_source_priority_witness :
    sourceOf reqBoth (payloadOf reqBoth) = .upload ⟨str "a.pdf"⟩ ∧
      (Effect.fetch (str "http://x") ∉ (ocrPdf reqBoth envA).trace) ∧
      ((ocrPdf reqNoInput envA).resp.status = 400 ∧
        (ocrPdf reqNoInput envA).resp.error =
          some (str "No input provided. Use multipart \"file\", or \"file_url\", or \"pdf_path\".")) :=
  ⟨C6_source_priority.1 reqBoth (payloadOf reqBoth) ⟨str "a.pdf"⟩ rfl (by decide),
   (C6_source_priority.2.1 reqBoth envA ⟨str "a.pdf"⟩ rfl (by decide)).1 (str "http://x"),
   C6_source_priority.2.2 reqNoInput envA 10 200 (.pstr (str "eng")) rfl
     (fun f h => nomatch h) (fun v h => nomatch h) (fun v h => nomatch h)⟩

/-- C7: allowed_file accepts the pdf extension — contradicting the
endpoint's own "Allowed: PNG, JPG, JPEG" message — so /ocr/image
accepts a doc.pdf upload and hands it to OCR instead of failing 400,
while a notes.txt upload is rejected 400 before any temporary file is
created. -/
theorem C7_image_extension_gap :
    allowed_file (str "doc.pdf") = true ∧
      (ocrImage reqImgPdf envA).resp.status = 200 ∧
      Effect.ocrImg 7 ∈ (ocrImage reqImgPdf envA).trace ∧
      allowed_file (str "notes.txt") = false ∧
      (ocrImage reqImgTxt envA).resp.status = 400 ∧
      (ocrImage reqImgTxt envA).trace = [] ∧ (ocrImage reqImgTxt envA).fs = [] := by
  decide

/-- C8: a request whose selected source is a file_url with a scheme
other than http or https is rejected 400 with the scheme error having
performed no effect at all — in particular no network fetch. -/
theorem C8_scheme_reject (req : Request) (env : Env) (mp d : Int) (lang v : PValue)
    (hp : parseParams (payloadOf req) = .ok (mp, d, lang))
    (hs : sourceOf req (payloadOf req) = .url v)
    (hscheme : is_http_url (stripStr (pyStr v)) = false) :
    (ocrPdf req env).resp.status = 400 ∧
      (ocrPdf req env).resp.error = some (str "file_url must be http/https") ∧
      (ocrPdf req env).trace = [] := by
  simp only [ocrPdf, hp, hs, urlBranch]
  rw [hscheme]
  simp only [Bool.not_false, if_true]
  simp [errResp]

/-- Witness for C8 at the concrete ftp://host/file.pdf request. -/
theorem C8_scheme_reject_witness :
    (ocrPdf reqFtp envA).resp.status = 400 ∧
      (ocrPdf reqFtp envA).resp.error = some (str "file_url must be http/https") ∧
      (ocrPdf reqFtp envA).trace = [] :=
  C8_scheme_reject reqFtp envA 10 200 (.pstr (str "eng")) (.pstr (str "ftp://host/file.pdf"))
    rfl rfl (by decide)

/-- C9 counterexample: for a 200 fetch of http://h/a.pdf?x=1 declared
text/html, the sniff the spec words (URL path ends in .pdf) accepts,
but the service rejects the request 400 as not a PDF: the code tests
the full URL string, not the URL path. -/
theorem C9_sniff_counterexample :
    sniffSpec (str "text/html") (str "http://h/a.pdf?x=1") = true ∧
      sniffOk (str "text/html") (str "http://h/a.pdf?x=1") = false ∧
      (ocrPdf reqUrlQuery envHtml).resp = errResp 400 (str "URL does not appear to be a PDF") := by
  decide

/-- C9 (amended): for a 200 fetch, acceptance is decided by sniffOk —
the declared content type contains "pdf" or the lowercased full URL
string ends in ".pdf": when it fails the request is rejected 400 as
not a PDF having only fetched; when it holds the body is staged for
extraction. -/
theorem C9_sniff_amended (req : Request) (env : Env) (mp d : Int) (lang v : PValue) (r : FetchResp)
    (hp : parseParams (payloadOf req) = .ok (mp, d, lang))
    (hs : sourceOf req (payloadOf req) = .url v)
    (hhttp : is_http_url (stripStr (pyStr v)) = true)
    (hf : env.fetch (stripStr (pyStr v)) = .ok r)
    (h200 : r.status = 200) :
    (sniffOk r.content_type (stripStr (pyStr v)) = false →
      (ocrPdf req env).resp = errResp 400 (str "URL does not appear to be a PDF") ∧
        (ocrPdf req env).trace = [.fetch (stripStr (pyStr v))]) ∧
    (sniffOk r.content_type (stripStr (pyStr v)) = true →
      Effect.mkTemp env.tempName ∈ (ocrPdf req env).trace) := by
  simp only [ocrPdf, hp, hs, urlBranch, hhttp, Bool.not_true, Bool.false_eq_true, if_false, hf]
  rw [if_neg (by simp [h200])]
  constructor
  · intro hsn
    rw [hsn]
    simp only [Bool.not_false, if_true]
    simp [errResp]
  · intro hsn
    rw [hsn]
    simp only [Bool.not_true, Bool.false_eq_true, if_false]
    split
    · simp
    · rw [afterStage_trace]
      simp

/-- Witness for C9 (amended): the first branch at the concrete
text/html fetch of http://h/a.pdf?x=1. -/
theorem C9_sniff_amended_witness :
    (ocrPdf reqUrlQuery envHtml).resp = errResp 400 (str "URL does not appear to be a PDF") ∧
      (ocrPdf reqUrlQuery envHtml).trace = [.fetch (str "http://h/a.pdf?x=1")] :=
  (C9_sniff_amended reqUrlQuery envHtml 10 200 (.pstr (str "eng"))
      (.pstr (str "http://h/a.pdf?x=1")) ⟨200, str "text/html"⟩ rfl rfl (by decide) rfl rfl).1
    (by decide)

/-- C10 counterexample: the /ocr/image no-file validation failure is a
400 whose body has an error string but no success flag at all. -/
theorem C10_error_shape_counterexample :
    (ocrImage reqNoInput envA).resp.status = 400 ∧
      (ocrImage reqNoInput envA).resp.success = none ∧
      (ocrImage reqNoInput envA).resp.error = some (str "No file provided") := by
  decide

/-- C10 (amended): every /ocr/pdf failure carries success False and an
error string; /ocr/image 500 responses (extraction failures and
unhandled exceptions) carry success False and an error string; but the
/ocr/image 400 validation failures carry only the error string and no
success flag. -/
theorem C10_error_shape_amended (req : Request) (env : Env) :
    ((ocrPdf req env).resp.status ≠ 200 → (ocrPdf req env).resp.success = false ∧
      (ocrPdf req env).resp.error.isSome = true) ∧
    ((ocrImage req env).resp.status = 500 → (ocrImage req env).resp.success = some false ∧
      (ocrImage req env).resp.error.isSome = true) ∧
    ((ocrImage req env).resp.status = 400 → (ocrImage req env).resp.success = none ∧
      (ocrImage req env).resp.error.isSome = true) := by
  refine ⟨(ocrPdf_good req env).2, ?_, ?_⟩
  · intro h500
    rcases ocrImage_resp_cases req env with ⟨h1, h2, h3⟩ | ⟨h1, h2, h3⟩ | ⟨h1, h2, h3⟩
    · rw [h1] at h500; omega
    · rw [h1] at h500; omega
    · exact ⟨h2, h3⟩
  · intro h400
    rcases ocrImage_resp_cases req env with ⟨h1, h2, h3⟩ | ⟨h1, h2, h3⟩ | ⟨h1, h2, h3⟩
    · rw [h1] at h400; omega
    · exact ⟨h2, h3⟩
    · rw [h1] at h400; omega

/-- Witness for C10 (amended) at the empty request on both endpoints. -/
theorem C10_error_shape_amended_witness :
    ((ocrPdf reqNoInput envA).resp.success = false ∧
      (ocrPdf reqNoInput envA).resp.error.isSome = true) ∧
    ((ocrImage reqNoInput envA).resp.success = none ∧
      (ocrImage reqNoInput envA).resp.error.isSome = true) :=
  ⟨(C10_error_shape_amended reqNoInput envA).1 (by decide),
   (C10_error_shape_amended reqNoInput envA).2.2 (by decide)⟩
